import Mathlib

/-!
Shallow embedding of the exam paper assembly and attempt lifecycle engine of
the online-examsys backend (app/crud/crud_exam.py, app/crud/crud_attempt.py,
app/crud/crud_answer.py, app/api/v1/endpoints/attempts.py, app/db/models).

Database rows become Lean structures, tables become lists, timestamps become
integers, DECIMAL scores become rationals, and the SQL `ORDER BY rand()`
randomization is parametrized by a shuffle function on the candidate pool.
-/

namespace ExamSys

/-- Mirrors `PaperGenerationModeEnum` in app/db/models/exam.py. -/
inductive PaperGenerationModeEnum where
  | manual
  | random_unified
  | random_individual
deriving DecidableEq, Repr

/-- Mirrors `ExamStatusEnum` in app/db/models/exam.py. -/
inductive ExamStatusEnum where
  | draft
  | published
  | ongoing
  | finished
  | archived
deriving DecidableEq, Repr

/-- Mirrors `ExamAttemptStatusEnum` in app/db/models/exam.py. -/
inductive ExamAttemptStatusEnum where
  | pending
  | in_progress
  | submitted
  | grading
  | graded
  | aborted
deriving DecidableEq, Repr

/-- Mirrors `QuestionTypeEnum` in app/schemas/question.py. -/
inductive QuestionTypeEnum where
  | single_choice
  | multiple_choice
  | fill_in_blank
  | short_answer
deriving DecidableEq, Repr

/-- Mirrors `RandomQuestionParameter` in app/schemas/exam.py:
a selection rule for random paper generation. -/
structure RandomQuestionParameter where
  chapter_ids : List Nat
  question_type : Option QuestionTypeEnum
  count : Nat
  score_per_question : Rat
deriving DecidableEq, Repr

/-- The fields of `Question` used by the paper generators (id, chapter, type);
mirrors app/db/models/question.py as consumed by crud_exam.py queries. -/
structure QuestionRow where
  id : Nat
  chapter_id : Nat
  question_type : QuestionTypeEnum
deriving DecidableEq, Repr

/-- Mirrors the `Exam` model (app/db/models/exam.py).  `random_rules_json` is
the attribute set via `setattr` in crud_exam.py for random modes. -/
structure ExamRow where
  id : Nat
  name : String
  start_time : Int
  end_time : Int
  duration_minutes : Int
  show_score_after_exam : Bool
  show_answers_after_exam : Bool
  rules : Option String
  paper_generation_mode : PaperGenerationModeEnum
  status : ExamStatusEnum
  creator_id : Option Nat
  random_rules_json : Option (List RandomQuestionParameter)
deriving DecidableEq, Repr

/-- Mirrors the `ExamQuestion` model: one row of the shared paper keyed by
exam_id. -/
structure ExamQuestionRow where
  exam_id : Nat
  question_id : Nat
  score : Rat
  order_index : Nat
deriving DecidableEq, Repr

/-- Mirrors the `ExamParticipant` model: references either a user or a group. -/
structure ExamParticipantRow where
  exam_id : Nat
  user_id : Option Nat
  group_id : Option Nat
deriving DecidableEq, Repr

/-- Mirrors the `ExamAttempt` model. -/
structure ExamAttemptRow where
  id : Nat
  exam_id : Nat
  user_id : Nat
  start_time : Option Int
  submit_time : Option Int
  calculated_end_time : Option Int
  status : ExamAttemptStatusEnum
  final_score : Option Rat
  last_heartbeat : Option Int
deriving DecidableEq, Repr

/-- Mirrors the `ExamAttemptPaper` model: an individual paper row keyed by
attempt_id. -/
structure ExamAttemptPaperRow where
  attempt_id : Nat
  question_id : Nat
  score : Rat
  order_index : Nat
deriving DecidableEq, Repr

/-- Mirrors the `PreGeneratedPaper` model: an individual paper row keyed by
(exam_id, user_id), written at publish time. -/
structure PreGeneratedPaperRow where
  exam_id : Nat
  user_id : Nat
  question_id : Nat
  score : Rat
  order_index : Nat
deriving DecidableEq, Repr

/-- Mirrors the `Answer` model (grading fields and the raw user answer). -/
structure AnswerRow where
  attempt_id : Nat
  question_id : Nat
  user_answer : Option String
  score : Option Rat
  is_correct : Option Bool
  grader_id : Option Nat
  grading_comments : Option String
  graded_at : Option Int
deriving DecidableEq, Repr

/-- One row of the `user_groups` association table. -/
structure UserGroupRow where
  user_id : Nat
  group_id : Nat
deriving DecidableEq, Repr

/-- The relational state the engine operates on: one list per table. -/
structure DB where
  exams : List ExamRow
  questions : List QuestionRow
  examQuestions : List ExamQuestionRow
  examParticipants : List ExamParticipantRow
  attempts : List ExamAttemptRow
  attemptPapers : List ExamAttemptPaperRow
  preGeneratedPapers : List PreGeneratedPaperRow
  answers : List AnswerRow
  userGroups : List UserGroupRow
deriving DecidableEq, Repr

/-- Point lookup of an attempt by primary key
(`CRUDExamAttempt.get` / `db.get(models.ExamAttempt, attempt_id)`). -/
def DB.getAttempt (db : DB) (attempt_id : Nat) : Option ExamAttemptRow :=
  db.attempts.find? (fun a => a.id = attempt_id)

/-- Point lookup of an exam by primary key (`db.get(models.Exam, exam_id)`). -/
def DB.getExam (db : DB) (exam_id : Nat) : Option ExamRow :=
  db.exams.find? (fun e => e.id = exam_id)

/-- `CRUDExamAttempt.submit_attempt` (crud_attempt.py lines 79-99): requires
status in_progress, then records submit_time := now and status := submitted.
The commented-out lateness check in the source is absent, so no comparison
with calculated_end_time happens here. -/
def submit_attempt (attempt : ExamAttemptRow) (now : Int) :
    Except String ExamAttemptRow :=
  if attempt.status ≠ ExamAttemptStatusEnum.in_progress then
    Except.error "Cannot submit attempt with this status."
  else
    Except.ok { attempt with
      submit_time := some now
      status := ExamAttemptStatusEnum.submitted }

/-- `CRUDExamAttempt.update_heartbeat` (crud_attempt.py lines 101-118): a
conditional UPDATE of last_heartbeat guarded by `WHERE id = attempt_id AND
status = in_progress`; commit and return true when rowcount > 0, otherwise
rollback (state unchanged) and return false. -/
def update_heartbeat (db : DB) (attempt_id : Nat) (now : Int) : DB × Bool :=
  let hit := db.attempts.any (fun a =>
    a.id = attempt_id ∧ a.status = ExamAttemptStatusEnum.in_progress)
  if hit then
    ({ db with attempts := db.attempts.map (fun a =>
        if a.id = attempt_id ∧ a.status = ExamAttemptStatusEnum.in_progress then
          { a with last_heartbeat := some now }
        else a) }, true)
  else
    (db, false)

/-- `CRUDAnswer.get` (crud_answer.py lines 16-21): the answer row for one
(attempt, question) pair. -/
def get_answer (db : DB) (attempt_id question_id : Nat) : Option AnswerRow :=
  db.answers.find? (fun r =>
    r.attempt_id = attempt_id ∧ r.question_id = question_id)

/-- `CRUDAnswer.save_answer` (crud_answer.py lines 30-91): upsert keyed on the
(attempt_id, question_id) unique constraint.  Both the INSERT values and the ON
DUPLICATE KEY UPDATE clause carry the new user_answer together with
score/is_correct/grader_id/grading_comments/graded_at all reset to NULL. -/
def save_answer (db : DB) (attempt_id question_id : Nat)
    (user_answer : Option String) : DB :=
  if db.answers.any (fun r =>
      r.attempt_id = attempt_id ∧ r.question_id = question_id) then
    { db with answers := db.answers.map (fun r =>
        if r.attempt_id = attempt_id ∧ r.question_id = question_id then
          { r with
            user_answer := user_answer
            score := none
            is_correct := none
            grader_id := none
            grading_comments := none
            graded_at := none }
        else r) }
  else
    { db with answers := db.answers ++
        [{ attempt_id := attempt_id
           question_id := question_id
           user_answer := user_answer
           score := none
           is_correct := none
           grader_id := none
           grading_comments := none
           graded_at := none }] }

/-- The SQL aggregate in `calculate_and_save_final_score`:
SUM(answers.score) over the rows of one attempt whose score is not NULL. -/
def answer_score_total (db : DB) (attempt_id : Nat) : Rat :=
  (db.answers.filterMap (fun an =>
    if an.attempt_id = attempt_id then an.score else none)).sum

/-- `CRUDExamAttempt.calculate_and_save_final_score` (crud_attempt.py lines
212-234): none when the attempt does not exist; otherwise final_score becomes
the non-null score sum (the `or 0.0` fallback maps an empty sum to 0) and
status becomes graded. -/
def calculate_and_save_final_score (db : DB) (attempt_id : Nat) :
    Option (DB × ExamAttemptRow) :=
  match db.getAttempt attempt_id with
  | none => none
  | some attempt =>
    let updated := { attempt with
      final_score := some (answer_score_total db attempt_id)
      status := ExamAttemptStatusEnum.graded }
    some ({ db with attempts := db.attempts.map (fun a =>
        if a.id = attempt_id then updated else a) }, updated)

/-- `get_valid_active_attempt` (endpoints/attempts.py lines 18-32): 404 when
missing, 403 when owned by another user, 400 when not in_progress, and a 400
"Exam time has expired." when now is past calculated_end_time. -/
def get_valid_active_attempt (db : DB) (attempt_id current_user_id : Nat)
    (now : Int) : Except String ExamAttemptRow :=
  match db.getAttempt attempt_id with
  | none => Except.error "Exam attempt not found."
  | some attempt =>
    if attempt.user_id ≠ current_user_id then
      Except.error "Not authorized to access this attempt."
    else if attempt.status ≠ ExamAttemptStatusEnum.in_progress then
      Except.error "Exam attempt is not in progress."
    else
      match attempt.calculated_end_time with
      | some t =>
        if now > t then Except.error "Exam time has expired."
        else Except.ok attempt
      | none => Except.ok attempt

/-- `submit_exam_attempt` endpoint (endpoints/attempts.py lines 246-272):
validates through get_valid_active_attempt, then delegates to
CRUDExamAttempt.submit_attempt and persists the updated attempt row. -/
def submit_exam_attempt (db : DB) (attempt_id current_user_id : Nat)
    (now : Int) : Except String (DB × ExamAttemptRow) :=
  match get_valid_active_attempt db attempt_id current_user_id now with
  | Except.error e => Except.error e
  | Except.ok attempt =>
    match submit_attempt attempt now with
    | Except.error e => Except.error e
    | Except.ok updated =>
      Except.ok ({ db with attempts := db.attempts.map (fun a =>
          if a.id = attempt.id then updated else a) }, updated)

/-- Fresh primary key for a newly inserted attempt row. -/
def next_attempt_id (db : DB) : Nat :=
  (db.attempts.map (fun a => a.id)).foldr max 0 + 1

/-- `CRUDExamAttempt.create_or_get_pending` (crud_attempt.py lines 44-57):
returns the existing attempt for (user, exam) unless it already reached
submitted/graded/aborted (then an error), creating a fresh pending row when
none exists. -/
def create_or_get_pending (db : DB) (user_id exam_id : Nat) :
    Except String (DB × ExamAttemptRow) :=
  match db.attempts.find? (fun a =>
      a.user_id = user_id ∧ a.exam_id = exam_id) with
  | none =>
    let row : ExamAttemptRow :=
      { id := next_attempt_id db
        exam_id := exam_id
        user_id := user_id
        start_time := none
        submit_time := none
        calculated_end_time := none
        status := ExamAttemptStatusEnum.pending
        final_score := none
        last_heartbeat := none }
    Except.ok ({ db with attempts := db.attempts ++ [row] }, row)
  | some attempt =>
    if attempt.status = ExamAttemptStatusEnum.submitted ∨
       attempt.status = ExamAttemptStatusEnum.graded ∨
       attempt.status = ExamAttemptStatusEnum.aborted then
      Except.error "Exam attempt has already been completed."
    else
      Except.ok (db, attempt)

/-- `CRUDExamAttempt.start_attempt` (crud_attempt.py lines 60-77): idempotent
when already in_progress; otherwise requires pending and sets start_time,
calculated_end_time := now + duration (time measured in minutes), status and
the initial heartbeat. -/
def start_attempt (db : DB) (attempt : ExamAttemptRow)
    (duration_minutes : Int) (now : Int) : Except String (DB × ExamAttemptRow) :=
  if attempt.status = ExamAttemptStatusEnum.in_progress then
    Except.ok (db, attempt)
  else if attempt.status ≠ ExamAttemptStatusEnum.pending then
    Except.error "Cannot start attempt with this status."
  else
    let updated := { attempt with
      start_time := some now
      calculated_end_time := some (now + duration_minutes)
      status := ExamAttemptStatusEnum.in_progress
      last_heartbeat := some now }
    Except.ok ({ db with attempts := db.attempts.map (fun a =>
        if a.id = attempt.id then updated else a) }, updated)

/-- `start_or_resume_exam_attempt` endpoint (endpoints/attempts.py lines
99-167): validates exam window/status and participation, gets or creates the
attempt, starts it when pending (the random_individual paper generation there
is a pass placeholder in the source), and flips the exam status from published
to ongoing after a successful start. -/
def start_or_resume_exam_attempt (db : DB) (exam_id user_id : Nat)
    (user_group_ids : List Nat) (now : Int) :
    Except String (DB × ExamAttemptRow) :=
  match db.getExam exam_id with
  | none => Except.error "Exam not found."
  | some exam =>
    if exam.start_time > now then
      Except.error "Exam has not started yet."
    else if exam.end_time ≤ now then
      Except.error "Exam has already ended."
    else if ¬(exam.status = ExamStatusEnum.published ∨
              exam.status = ExamStatusEnum.ongoing) then
      Except.error "Exam cannot be started in this status."
    else if ¬ db.examParticipants.any (fun p =>
        p.exam_id = exam_id ∧
        (p.user_id = some user_id ∨
         (∃ g ∈ user_group_ids, p.group_id = some g))) then
      Except.error "You are not assigned to this exam."
    else
      match create_or_get_pending db user_id exam_id with
      | Except.error e => Except.error e
      | Except.ok (db1, attempt) =>
        if attempt.status = ExamAttemptStatusEnum.pending then
          match start_attempt db1 attempt exam.duration_minutes now with
          | Except.error e => Except.error e
          | Except.ok (db2, started) =>
            let db3 :=
              if exam.status = ExamStatusEnum.published then
                { db2 with exams := db2.exams.map (fun e =>
                    if e.id = exam_id then
                      { exam with status := ExamStatusEnum.ongoing }
                    else e) }
              else db2
            Except.ok (db3, started)
        else if attempt.status ≠ ExamAttemptStatusEnum.in_progress then
          Except.error "Cannot resume attempt with this status."
        else
          Except.ok (db1, attempt)

/-- One selected entry of a generated paper: (question_id, score, order_index)
as produced by the selection loops in crud_exam.py and crud_attempt.py. -/
structure PaperEntry where
  question_id : Nat
  score : Rat
  order_index : Nat
deriving DecidableEq, Repr

/-- The candidate pool a rule queries: questions in one of the rule chapters,
matching the optional type filter, excluding ids in `chosen` (the
`Question.id.notin_(question_ids_selected)` filter). -/
def rule_pool (qs : List QuestionRow) (chosen : List Nat)
    (rule : RandomQuestionParameter) : List Nat :=
  (qs.filter (fun q =>
    q.chapter_id ∈ rule.chapter_ids ∧ q.id ∉ chosen ∧
    (rule.question_type = none ∨
     rule.question_type = some q.question_type))).map (fun q => q.id)

/-- Builds paper entries for a list of picked question ids, assigning one
fixed per-rule score and consecutive order indices from `idx`. -/
def mk_entries (score : Rat) : Nat → List Nat → List PaperEntry
  | _, [] => []
  | idx, q :: rest => ⟨q, score, idx⟩ :: mk_entries score (idx + 1) rest

/-- The shared selection loop of `CRUDExam._generate_single_individual_paper`
and `CRUDExam.generate_unified_paper`: per rule, shuffle the still-available
pool (`ORDER BY rand()`, modeled by the shuffle parameter), take `count`, emit
entries with sequential order indices, and add the picks to the exclusion
set. -/
def select_by_rules (qs : List QuestionRow)
    (shuffle : Nat → List Nat → List Nat) :
    List RandomQuestionParameter → Nat → Nat → List Nat → List PaperEntry
  | [], _, _, _ => []
  | r :: rs, i, idx, chosen =>
    let picked := (shuffle i (rule_pool qs chosen r)).take r.count
    mk_entries r.score_per_question idx picked ++
      select_by_rules qs shuffle rs (i + 1) (idx + picked.length)
        (chosen ++ picked)

/-- The selection loop of `CRUDExamAttempt.generate_individual_paper`
(crud_attempt.py lines 122-166): identical shape but with NO exclusion of
already selected questions — each rule queries the full pool. -/
def select_by_rules_no_dedup (qs : List QuestionRow)
    (shuffle : Nat → List Nat → List Nat) :
    List RandomQuestionParameter → Nat → Nat → List PaperEntry
  | [], _, _ => []
  | r :: rs, i, idx =>
    let picked := (shuffle i (rule_pool qs [] r)).take r.count
    mk_entries r.score_per_question idx picked ++
      select_by_rules_no_dedup qs shuffle rs (i + 1) (idx + picked.length)

/-- `CRUDExam._generate_single_individual_paper` (crud_exam.py lines 226-260):
runs the selection loop and raises only when nothing at all was selected. -/
def generate_single_individual_paper (qs : List QuestionRow)
    (shuffle : Nat → List Nat → List Nat)
    (rules : List RandomQuestionParameter) : Except String (List PaperEntry) :=
  let out := select_by_rules qs shuffle rules 0 0 []
  if out = [] then
    Except.error "No questions could be selected based on the provided rules."
  else
    Except.ok out

/-- `CRUDExam.generate_unified_paper` (crud_exam.py lines 336-364): the same
selection loop, erroring only on an empty selection, with the result persisted
as ExamQuestion rows of the exam. -/
def generate_unified_paper (db : DB) (exam : ExamRow)
    (shuffle : Nat → List Nat → List Nat)
    (rules : List RandomQuestionParameter) : Except String DB :=
  let out := select_by_rules db.questions shuffle rules 0 0 []
  if out = [] then
    Except.error "No questions selected for unified exam."
  else
    Except.ok { db with examQuestions :=
      (db.examQuestions ++ out.map (fun e =>
        { exam_id := exam.id
          question_id := e.question_id
          score := e.score
          order_index := e.order_index })) }

/-- `CRUDExamAttempt.generate_individual_paper` (crud_attempt.py lines
122-166): skipped when ExamAttemptPaper rows already exist for the attempt;
otherwise runs the no-exclusion selection loop and stores the entries keyed
by attempt_id. -/
def generate_individual_paper (db : DB) (attempt : ExamAttemptRow)
    (shuffle : Nat → List Nat → List Nat)
    (rules : List RandomQuestionParameter) : DB :=
  if db.attemptPapers.any (fun p => p.attempt_id = attempt.id) then
    db
  else
    let out := select_by_rules_no_dedup db.questions shuffle rules 0 0
    { db with attemptPapers :=
      (db.attemptPapers ++ out.map (fun e =>
        { attempt_id := attempt.id
          question_id := e.question_id
          score := e.score
          order_index := e.order_index })) }

/-- Insertion step of the ORDER BY order_index sort. -/
def insert_by_order {α : Type} (key : α → Nat) (x : α) :
    List α → List α
  | [] => [x]
  | y :: ys =>
    if key x ≤ key y then x :: y :: ys else y :: insert_by_order key x ys

/-- Stable sort by order_index, modeling the SQL ORDER BY clause. -/
def sort_by_order {α : Type} (key : α → Nat) : List α → List α
  | [] => []
  | x :: xs => insert_by_order key x (sort_by_order key xs)

/-- `CRUDExamAttempt.get_attempt_paper_questions` (crud_attempt.py lines
169-197): empty when the attempt or its exam is missing; for
random_individual it joins Question against ExamAttemptPaper filtered by
attempt_id; for manual/random_unified it joins Question against ExamQuestion
filtered by exam_id; both ordered by order_index. -/
def get_attempt_paper_questions (db : DB) (attempt_id : Nat) :
    List (QuestionRow × Nat × Rat) :=
  match db.getAttempt attempt_id with
  | none => []
  | some attempt =>
    match db.getExam attempt.exam_id with
    | none => []
    | some exam =>
      if exam.paper_generation_mode =
          PaperGenerationModeEnum.random_individual then
        (sort_by_order (fun p => p.order_index)
            (db.attemptPapers.filter (fun p =>
              p.attempt_id = attempt_id))).filterMap
          (fun p => (db.questions.find? (fun q =>
              q.id = p.question_id)).map
            (fun q => (q, p.order_index, p.score)))
      else
        (sort_by_order (fun p => p.order_index)
            (db.examQuestions.filter (fun p =>
              p.exam_id = exam.id))).filterMap
          (fun p => (db.questions.find? (fun q =>
              q.id = p.question_id)).map
            (fun q => (q, p.order_index, p.score)))

/-- `ParticipantAssignment` (app/schemas/exam.py): the roster update input. -/
structure ParticipantAssignment where
  user_ids : List Nat
  group_ids : List Nat
deriving DecidableEq, Repr

/-- `_resolve_participant_user_ids` (crud_exam.py lines 15-40): the set of
user ids assigned directly plus the members of all assigned groups.  The
Python set is modeled as a deduplicated list. -/
def resolve_participant_user_ids (db : DB) (exam_id : Nat) : List Nat :=
  let rows := db.examParticipants.filter (fun p => p.exam_id = exam_id)
  let direct := rows.filterMap (fun p => p.user_id)
  let gids := rows.filterMap (fun p => p.group_id)
  let members := (db.userGroups.filter
    (fun ug => ug.group_id ∈ gids)).map (fun ug => ug.user_id)
  (direct ++ members).dedup

/-- The roster-replacement step of `CRUDExam._sync_participants`: delete the
ExamParticipant rows of the exam and insert the new assignment (users, then
groups; the Python sets are modeled as deduplicated lists). -/
def replace_participants (db : DB) (exam : ExamRow)
    (assignment : ParticipantAssignment) : DB :=
  { db with examParticipants :=
    (db.examParticipants.filter (fun p => p.exam_id ≠ exam.id)) ++
    ((assignment.user_ids.dedup.map (fun uid =>
      { exam_id := exam.id, user_id := some uid, group_id := none })) ++
     (assignment.group_ids.dedup.map (fun gid =>
      { exam_id := exam.id, user_id := none, group_id := some gid }))) }

/-- `added_users = new_users - current_users` of _sync_participants: resolved
after the roster replacement minus resolved before it. -/
def sync_added (db : DB) (exam : ExamRow)
    (assignment : ParticipantAssignment) : List Nat :=
  (resolve_participant_user_ids
      (replace_participants db exam assignment) exam.id).filter
    (fun u => ¬ u ∈ resolve_participant_user_ids db exam.id)

/-- `removed_users = current_users - new_users` of _sync_participants. -/
def sync_removed (db : DB) (exam : ExamRow)
    (assignment : ParticipantAssignment) : List Nat :=
  (resolve_participant_user_ids db exam.id).filter
    (fun u => ¬ u ∈ resolve_participant_user_ids
      (replace_participants db exam assignment) exam.id)

/-- The PreGeneratedPaper rows produced for the added users during the delta
step; a per-user generation failure is caught and the user skipped, as in the
`try/except` of the source. -/
def sync_added_paper_data (db : DB) (exam : ExamRow)
    (assignment : ParticipantAssignment)
    (shuffle : Nat → Nat → List Nat → List Nat)
    (rules : List RandomQuestionParameter) : List PreGeneratedPaperRow :=
  (sync_added db exam assignment).flatMap (fun uid =>
    match generate_single_individual_paper
        (replace_participants db exam assignment).questions
        (shuffle uid) rules with
    | Except.ok entries => entries.map (fun e =>
        PreGeneratedPaperRow.mk exam.id uid e.question_id e.score
          e.order_index)
    | Except.error _ => [])

/-- The state after the delta step of _sync_participants: insert the papers
generated for added users, then delete the rows of every removed user. -/
def sync_apply (db : DB) (exam : ExamRow)
    (assignment : ParticipantAssignment)
    (shuffle : Nat → Nat → List Nat → List Nat)
    (rules : List RandomQuestionParameter) : DB :=
  let db2 := replace_participants db exam assignment
  let added_paper_data := sync_added_paper_data db exam assignment shuffle rules
  let db3 :=
    if added_paper_data.isEmpty then db2
    else { db2 with preGeneratedPapers :=
      db2.preGeneratedPapers ++ added_paper_data }
  if (sync_removed db exam assignment).isEmpty then db3
  else { db3 with preGeneratedPapers :=
    db3.preGeneratedPapers.filter (fun r =>
      ¬(r.exam_id = exam.id ∧
        r.user_id ∈ sync_removed db exam assignment)) }

/-- `CRUDExam._sync_participants` (crud_exam.py lines 263-332): replaces the
roster, and when handle_paper_delta is set on a random_individual exam,
resolves the before/after user sets, generates individual papers for added
users (per-user failures swallowed), and deletes the PreGeneratedPaper rows
of every removed user.  Raises when rules are missing while users were
added.  The randomness is parametrized per (user, rule). -/
def sync_participants (db : DB) (exam : ExamRow)
    (assignment : ParticipantAssignment) (handle_paper_delta : Bool)
    (shuffle : Nat → Nat → List Nat → List Nat) :
    Except String (DB × List Nat × List Nat) :=
  if handle_paper_delta ∧ exam.paper_generation_mode =
      PaperGenerationModeEnum.random_individual then
    match (if (sync_added db exam assignment).isEmpty then Except.ok [] else
           match exam.random_rules_json with
           | none =>
             Except.error "Missing random rules for delta generation."
           | some rules => Except.ok rules :
           Except String (List RandomQuestionParameter)) with
    | Except.error e => Except.error e
    | Except.ok rules =>
      Except.ok (sync_apply db exam assignment shuffle rules,
        sync_added db exam assignment, sync_removed db exam assignment)
  else
    Except.ok (replace_participants db exam assignment, [], [])

/-- `CRUDExam.get_participant_count` (crud_exam.py lines 395-404): a plain
COUNT of ExamParticipant rows of the exam, with no group expansion (the
source marks accurate distinct-user counting as a TODO). -/
def get_participant_count (db : DB) (exam_id : Nat) : Nat :=
  (db.examParticipants.filter (fun p => p.exam_id = exam_id)).length

/-- The dictionary returned by `get_exam_statistics_admin`. -/
structure ExamStatistics where
  participant_count : Nat
  attempt_count : Nat
  average_score : Option Rat
  max_score_possible : Option Rat
deriving DecidableEq, Repr

/-- `get_exam_statistics_admin` (crud_attempt.py lines 301-364): zero stats
for a missing exam; COUNT/AVG over attempts of the exam that are graded with
a non-null final_score; max_score_possible per mode (SUM over ExamQuestion
rows for manual/random_unified, NULL when there are none; the rule total
count times score_per_question for random_individual, NULL when rules are
missing); participant_count from get_participant_count. -/
def get_exam_statistics_admin (db : DB) (exam_id : Nat) : ExamStatistics :=
  match db.getExam exam_id with
  | none =>
    { participant_count := 0
      attempt_count := 0
      average_score := none
      max_score_possible := none }
  | some exam =>
    let graded := db.attempts.filter (fun a =>
      a.exam_id = exam_id ∧ a.status = ExamAttemptStatusEnum.graded ∧
      a.final_score ≠ none)
    let average_score : Option Rat :=
      if graded.isEmpty then none
      else some ((graded.filterMap (fun a => a.final_score)).sum /
        (graded.length : Rat))
    let max_score_possible : Option Rat :=
      if exam.paper_generation_mode = PaperGenerationModeEnum.manual ∨
         exam.paper_generation_mode =
           PaperGenerationModeEnum.random_unified then
        let rows := db.examQuestions.filter (fun q => q.exam_id = exam_id)
        if rows.isEmpty then none
        else some ((rows.map (fun q => q.score)).sum)
      else
        match exam.random_rules_json with
        | some rules => some ((rules.map (fun r =>
            (r.count : Rat) * r.score_per_question)).sum)
        | none => none
    { participant_count := get_participant_count db exam_id
      attempt_count := graded.length
      average_score := average_score
      max_score_possible := max_score_possible }

/-! ### Concrete states used by witnesses and counterexamples -/

/-- An empty database. -/
def emptyDB : DB :=
  { exams := []
    questions := []
    examQuestions := []
    examParticipants := []
    attempts := []
    attemptPapers := []
    preGeneratedPapers := []
    answers := []
    userGroups := [] }

/-- An in_progress attempt (id 1, exam 10, user 9) whose deadline is time
100. -/
def lateAttempt : ExamAttemptRow :=
  { id := 1
    exam_id := 10
    user_id := 9
    start_time := some 0
    submit_time := none
    calculated_end_time := some 100
    status := ExamAttemptStatusEnum.in_progress
    final_score := none
    last_heartbeat := some 0 }

/-- A database holding only `lateAttempt`. -/
def lateDB : DB := { emptyDB with attempts := [lateAttempt] }

/-- A database for the final-score computation: attempt 1 has two scored
answers (5 and 10) and one ungraded answer. -/
def scoreDB : DB :=
  { emptyDB with
    attempts := [lateAttempt]
    answers :=
      [ { attempt_id := 1, question_id := 1, user_answer := some "A"
          score := some 5, is_correct := some true, grader_id := none
          grading_comments := none, graded_at := none }
      , { attempt_id := 1, question_id := 2, user_answer := some "B"
          score := some 10, is_correct := some true, grader_id := none
          grading_comments := none, graded_at := none }
      , { attempt_id := 1, question_id := 3, user_answer := some "essay"
          score := none, is_correct := none, grader_id := none
          grading_comments := none, graded_at := none } ] }

/-- The number of questions each rule can contribute: min(count, pool size),
accumulated over the rules with the same shrinking exclusion set as the
selection loop.  This is the "however many were found" quantity of the
shortfall policy. -/
def planned_count (qs : List QuestionRow)
    (shuffle : Nat → List Nat → List Nat) :
    List RandomQuestionParameter → Nat → List Nat → Nat
  | [], _, _ => 0
  | r :: rs, i, chosen =>
    let pool := rule_pool qs chosen r
    let picked := (shuffle i pool).take r.count
    min r.count pool.length + planned_count qs shuffle rs (i + 1) (chosen ++ picked)

/-- Two questions in chapter 1. -/
def genQs : List QuestionRow :=
  [ { id := 1, chapter_id := 1, question_type := QuestionTypeEnum.single_choice }
  , { id := 2, chapter_id := 1, question_type := QuestionTypeEnum.single_choice } ]

/-- A rule wanting 3 questions from chapter 1 (which only has 2). -/
def shortRule : RandomQuestionParameter :=
  { chapter_ids := [1], question_type := none, count := 3
    score_per_question := 2 }

/-- Two rules drawing one question each from the same chapter. -/
def dupRules : List RandomQuestionParameter :=
  [ { chapter_ids := [1], question_type := none, count := 1
      score_per_question := 1 }
  , { chapter_ids := [1], question_type := none, count := 1
      score_per_question := 1 } ]

/-- A pending attempt used by the attempt-level paper generator. -/
def dupAttempt : ExamAttemptRow :=
  { id := 2, exam_id := 10, user_id := 9, start_time := none
    submit_time := none, calculated_end_time := none
    status := ExamAttemptStatusEnum.pending, final_score := none
    last_heartbeat := none }

/-- State for the attempt-level generator: genQs plus the pending attempt. -/
def dupDB : DB := { emptyDB with questions := genQs, attempts := [dupAttempt] }

/-- A published random_individual exam with one stored rule. -/
def syncExam : ExamRow :=
  { id := 50, name := "sync", start_time := 0, end_time := 1000
    duration_minutes := 60, show_score_after_exam := true
    show_answers_after_exam := false, rules := none
    paper_generation_mode := PaperGenerationModeEnum.random_individual
    status := ExamStatusEnum.published, creator_id := none
    random_rules_json := some [ { chapter_ids := [1], question_type := none
                                  count := 1, score_per_question := 1 } ] }

/-- User 2 has an in_progress attempt on syncExam. -/
def syncAttempt : ExamAttemptRow :=
  { id := 70, exam_id := 50, user_id := 2, start_time := some 0
    submit_time := none, calculated_end_time := some 60
    status := ExamAttemptStatusEnum.in_progress, final_score := none
    last_heartbeat := some 0 }

/-- Roster state: user 2 assigned with a pre-generated paper and an active
attempt; the question table is empty. -/
def syncDB : DB :=
  { emptyDB with
    exams := [syncExam]
    examParticipants := [ { exam_id := 50, user_id := some 2
                            group_id := none } ]
    attempts := [syncAttempt]
    preGeneratedPapers := [ { exam_id := 50, user_id := 2, question_id := 1
                              score := 1, order_index := 0 } ] }

/-- A manual exam used by the statistics claims. -/
def statsExam : ExamRow :=
  { id := 60, name := "stats", start_time := 0, end_time := 1000
    duration_minutes := 60, show_score_after_exam := true
    show_answers_after_exam := false, rules := none
    paper_generation_mode := PaperGenerationModeEnum.manual
    status := ExamStatusEnum.published, creator_id := none
    random_rules_json := none }

/-- Statistics state: one group participant row whose group has two members,
one graded attempt with score 5, one paper question worth 5. -/
def statsDB : DB :=
  { emptyDB with
    exams := [statsExam]
    examQuestions := [ { exam_id := 60, question_id := 1, score := 5
                         order_index := 0 } ]
    examParticipants := [ { exam_id := 60, user_id := none
                            group_id := some 8 } ]
    userGroups := [ { user_id := 4, group_id := 8 }
                  , { user_id := 5, group_id := 8 } ]
    attempts := [ { id := 80, exam_id := 60, user_id := 4
                    start_time := some 0, submit_time := some 50
                    calculated_end_time := some 60
                    status := ExamAttemptStatusEnum.graded
                    final_score := some 5, last_heartbeat := some 0 } ] }

/-- A published manual exam inside its window. -/
def startExam : ExamRow :=
  { id := 10, name := "start", start_time := 0, end_time := 1000
    duration_minutes := 60, show_score_after_exam := true
    show_answers_after_exam := false, rules := none
    paper_generation_mode := PaperGenerationModeEnum.manual
    status := ExamStatusEnum.published, creator_id := none
    random_rules_json := none }

/-- A pending attempt of user 9 on startExam. -/
def pendAttempt : ExamAttemptRow :=
  { id := 1, exam_id := 10, user_id := 9, start_time := none
    submit_time := none, calculated_end_time := none
    status := ExamAttemptStatusEnum.pending, final_score := none
    last_heartbeat := none }

/-- State for the start endpoint: the exam, its participant row and the
pending attempt. -/
def startDB : DB :=
  { emptyDB with
    exams := [startExam]
    examParticipants := [ { exam_id := 10, user_id := some 9
                            group_id := none } ]
    attempts := [pendAttempt] }

/-- An ongoing random_individual exam. -/
def paperExam : ExamRow :=
  { id := 1, name := "paper", start_time := 0, end_time := 1000
    duration_minutes := 60, show_score_after_exam := true
    show_answers_after_exam := false, rules := none
    paper_generation_mode := PaperGenerationModeEnum.random_individual
    status := ExamStatusEnum.ongoing, creator_id := none
    random_rules_json := some [ { chapter_ids := [1], question_type := none
                                  count := 1, score_per_question := 5 } ] }

/-- The in_progress attempt of user 7 on paperExam. -/
def paperAttempt : ExamAttemptRow :=
  { id := 5, exam_id := 1, user_id := 7, start_time := some 0
    submit_time := none, calculated_end_time := some 60
    status := ExamAttemptStatusEnum.in_progress, final_score := none
    last_heartbeat := some 0 }

/-- State after publish of a random_individual exam: user 7 has
PreGeneratedPaper rows keyed by (exam_id, user_id) but — as in the source,
where the attempt-start paper copy is an unimplemented placeholder — no
ExamAttemptPaper rows exist. -/
def paperDB : DB :=
  { emptyDB with
    exams := [paperExam]
    questions := [ { id := 10, chapter_id := 1
                     question_type := QuestionTypeEnum.single_choice } ]
    attempts := [paperAttempt]
    preGeneratedPapers := [ { exam_id := 1, user_id := 7, question_id := 10
                              score := 5, order_index := 0 } ] }

/-! ### Helper lemmas -/

/-- After the conditional resetting map of save_answer, the first row matching
the (attempt_id, question_id) key is exactly the fresh reset row. -/
theorem find?_reset_map (attempt_id question_id : Nat) (ans : Option String) :
    ∀ l : List AnswerRow,
      l.any (fun r =>
        r.attempt_id = attempt_id ∧ r.question_id = question_id) = true →
      (l.map (fun r =>
        if r.attempt_id = attempt_id ∧ r.question_id = question_id then
          { r with
            user_answer := ans
            score := none
            is_correct := none
            grader_id := none
            grading_comments := none
            graded_at := none }
        else r)).find? (fun r =>
          r.attempt_id = attempt_id ∧ r.question_id = question_id) =
      some { attempt_id := attempt_id, question_id := question_id
             user_answer := ans, score := none, is_correct := none
             grader_id := none, grading_comments := none, graded_at := none }
  | [], h => by simp at h
  | r :: l, h => by
    by_cases hr : r.attempt_id = attempt_id ∧ r.question_id = question_id
    · obtain ⟨h1, h2⟩ := hr
      simp [List.find?_cons, h1, h2]
    · have hl : l.any (fun r =>
          r.attempt_id = attempt_id ∧ r.question_id = question_id) = true := by
        simp only [List.any_cons, Bool.or_eq_true, decide_eq_true_eq] at h
        rcases h with h | h
        · exact absurd h hr
        · exact h
      simpa [List.find?_cons, hr] using
        find?_reset_map attempt_id question_id ans l hl

/-- When no row matches the key, the appended fresh row is the one found. -/
theorem find?_append_fresh (attempt_id question_id : Nat) (x : AnswerRow) :
    ∀ l : List AnswerRow,
      (∀ r ∈ l, ¬(r.attempt_id = attempt_id ∧ r.question_id = question_id)) →
      (x.attempt_id = attempt_id ∧ x.question_id = question_id) →
      (l ++ [x]).find? (fun r =>
        r.attempt_id = attempt_id ∧ r.question_id = question_id) = some x
  | [], _, hx => by simp [List.find?_cons, hx.1, hx.2]
  | r :: l, h, hx => by
    have hr := h r (List.mem_cons_self r l)
    simpa [List.find?_cons, hr] using
      find?_append_fresh attempt_id question_id x l
        (fun y hy => h y (List.mem_cons_of_mem r hy)) hx

/-! ### Claim theorems -/

/-- C7: saving an answer for any (attempt, question) pair — whether a row
already existed or not — leaves the stored row carrying the new raw
user_answer with score, is_correct, grader_id, grading_comments and graded_at
all reset to none, in one operation. -/
theorem save_answer_resets_grade (db : DB) (attempt_id question_id : Nat)
    (ans : Option String) :
    get_answer (save_answer db attempt_id question_id ans)
      attempt_id question_id =
    some { attempt_id := attempt_id, question_id := question_id
           user_answer := ans, score := none, is_correct := none
           grader_id := none, grading_comments := none, graded_at := none } := by
  unfold save_answer get_answer
  by_cases h : db.answers.any (fun r =>
      r.attempt_id = attempt_id ∧ r.question_id = question_id) = true
  · simp only [h, if_true]
    exact find?_reset_map attempt_id question_id ans db.answers h
  · rw [Bool.not_eq_true] at h
    simp only [h, Bool.false_eq_true, if_false]
    refine find?_append_fresh attempt_id question_id _ db.answers ?_ ⟨rfl, rfl⟩
    intro r hr hc
    have : db.answers.any (fun r =>
        r.attempt_id = attempt_id ∧ r.question_id = question_id) = true :=
      List.any_eq_true.mpr ⟨r, hr, by simp [hc.1, hc.2]⟩
    rw [h] at this
    cases this

/-- C8: update_heartbeat returns true exactly when some attempt row with the
given id is currently in_progress; on false the whole state is unchanged; on
true exactly the matching rows get last_heartbeat := now. -/
theorem update_heartbeat_spec (db : DB) (attempt_id : Nat) (now : Int) :
    ((update_heartbeat db attempt_id now).2 = true ↔
      ∃ a ∈ db.attempts, a.id = attempt_id ∧
        a.status = ExamAttemptStatusEnum.in_progress)
  ∧ ((update_heartbeat db attempt_id now).2 = false →
      (update_heartbeat db attempt_id now).1 = db)
  ∧ ((update_heartbeat db attempt_id now).2 = true →
      (update_heartbeat db attempt_id now).1 =
        { db with attempts := db.attempts.map (fun a =>
            if a.id = attempt_id ∧
               a.status = ExamAttemptStatusEnum.in_progress then
              { a with last_heartbeat := some now }
            else a) }) := by
  unfold update_heartbeat
  by_cases h : (db.attempts.any fun a =>
      a.id = attempt_id ∧ a.status = ExamAttemptStatusEnum.in_progress) = true
  · rw [h, if_pos rfl]
    refine ⟨?_, ?_, ?_⟩
    · refine ⟨fun _ => ?_, fun _ => rfl⟩
      rw [List.any_eq_true] at h
      simpa using h
    · intro hc
      cases hc
    · intro _
      rfl
  · rw [Bool.not_eq_true] at h
    rw [h, if_neg Bool.false_ne_true]
    refine ⟨?_, ?_, ?_⟩
    · refine ⟨fun hc => absurd hc Bool.false_ne_true, fun hex => ?_⟩
      exfalso
      obtain ⟨a, ha, h1, h2⟩ := hex
      have hta : (db.attempts.any fun a =>
          a.id = attempt_id ∧
          a.status = ExamAttemptStatusEnum.in_progress) = true :=
        List.any_eq_true.mpr ⟨a, ha, by simp [h1, h2]⟩
      rw [h] at hta
      cases hta
    · intro _
      rfl
    · intro hc
      exact absurd hc Bool.false_ne_true

/-- C8 witness: on a concrete state with attempt 1 in_progress, the theorem
yields a successful heartbeat. -/
theorem update_heartbeat_spec_witness :
    (update_heartbeat lateDB 1 5).2 = true :=
  (update_heartbeat_spec lateDB 1 5).1.mpr
    ⟨lateAttempt, by decide, by decide, by decide⟩

/-- C6: when the attempt exists, calculate_and_save_final_score always
succeeds, setting final_score to the sum of the non-null answer scores of the
attempt (a null score contributing zero, an attempt with no scored answers
getting 0) and status to graded, with no error for outstanding unscored
answers. -/
theorem calculate_final_score_spec (db : DB) (attempt_id : Nat)
    (a : ExamAttemptRow) (h : db.getAttempt attempt_id = some a) :
    (calculate_and_save_final_score db attempt_id =
      some ({ db with attempts := db.attempts.map (fun x =>
          if x.id = attempt_id then
            { a with
              final_score := some (answer_score_total db attempt_id)
              status := ExamAttemptStatusEnum.graded }
          else x) },
        { a with
          final_score := some (answer_score_total db attempt_id)
          status := ExamAttemptStatusEnum.graded }))
  ∧ answer_score_total db attempt_id =
      (db.answers.filter (fun an => an.attempt_id = attempt_id)).foldr
        (fun an acc => an.score.getD 0 + acc) 0 := by
  constructor
  · simp [calculate_and_save_final_score, h]
  · unfold answer_score_total
    induction db.answers with
    | nil => simp
    | cons an l ih =>
      by_cases ha : an.attempt_id = attempt_id
      · cases hs : an.score with
        | none => simp [List.filterMap_cons, List.filter_cons, ha, hs, ih]
        | some s => simp [List.filterMap_cons, List.filter_cons, ha, hs, ih]
      · simp [List.filterMap_cons, List.filter_cons, ha, ih]

/-- C6 witness: attempt 1 of scoreDB has scores 5, 10 and one null; grading
completes with final_score 15 and status graded. -/
theorem calculate_final_score_spec_witness :
    calculate_and_save_final_score scoreDB 1 =
      some ({ scoreDB with attempts := scoreDB.attempts.map (fun x =>
          if x.id = 1 then
            { lateAttempt with
              final_score := some (answer_score_total scoreDB 1)
              status := ExamAttemptStatusEnum.graded }
          else x) },
        { lateAttempt with
          final_score := some (answer_score_total scoreDB 1)
          status := ExamAttemptStatusEnum.graded })
    ∧ answer_score_total scoreDB 1 = 15 :=
  ⟨(calculate_final_score_spec scoreDB 1 lateAttempt rfl).1, by
    simp [answer_score_total, scoreDB, emptyDB, List.filterMap_cons]
    norm_num⟩

/-- C2 counterexample: attempt 1 of lateDB is in_progress with deadline 100,
yet submitting at time 200 through the endpoint is rejected with the expired
error — the claim that a late submission is never rejected is false. -/
theorem submit_late_rejected_cex :
    lateAttempt.status = ExamAttemptStatusEnum.in_progress ∧
    lateAttempt.calculated_end_time = some 100 ∧
    submit_exam_attempt lateDB 1 9 200 =
      Except.error "Exam time has expired." := by
  refine ⟨rfl, rfl, ?_⟩
  rfl

/-- C2 amended: CRUDExamAttempt.submit_attempt itself requires in_progress
and then records submit_time := now and status := submitted for any now,
never consulting calculated_end_time; but the submit endpoint validates via
get_valid_active_attempt, which rejects the request with "Exam time has
expired." whenever now is past calculated_end_time, so a late submission
through the API is rejected rather than accepted. -/
theorem submit_attempt_late_policy :
    (∀ (a : ExamAttemptRow) (now : Int),
      a.status = ExamAttemptStatusEnum.in_progress →
      submit_attempt a now = Except.ok { a with
        submit_time := some now
        status := ExamAttemptStatusEnum.submitted })
  ∧ (∀ (db : DB) (attempt_id uid : Nat) (now t : Int) (a : ExamAttemptRow),
      db.getAttempt attempt_id = some a → a.user_id = uid →
      a.status = ExamAttemptStatusEnum.in_progress →
      a.calculated_end_time = some t → t < now →
      submit_exam_attempt db attempt_id uid now =
        Except.error "Exam time has expired.") := by
  constructor
  · intro a now h
    simp [submit_attempt, h]
  · intro db attempt_id uid now t a h hu hs he hlt
    unfold submit_exam_attempt get_valid_active_attempt
    rw [h]
    simp [hu, hs, he, hlt]

/-- mk_entries preserves the length of its input. -/
theorem mk_entries_length (s : Rat) :
    ∀ (idx : Nat) (l : List Nat), (mk_entries s idx l).length = l.length
  | _, [] => rfl
  | idx, _ :: rest => by
    simp [mk_entries, mk_entries_length s (idx + 1) rest]

/-- The question ids of mk_entries are exactly its input list. -/
theorem mk_entries_map_qid (s : Rat) :
    ∀ (idx : Nat) (l : List Nat),
      (mk_entries s idx l).map (fun e => e.question_id) = l
  | _, [] => rfl
  | idx, _ :: rest => by
    simp [mk_entries, mk_entries_map_qid s (idx + 1) rest]

/-- The order indices of mk_entries form the interval starting at idx. -/
theorem mk_entries_map_oidx (s : Rat) :
    ∀ (idx : Nat) (l : List Nat),
      (mk_entries s idx l).map (fun e => e.order_index) =
        List.range' idx l.length
  | _, [] => by simp [mk_entries, List.range']
  | idx, q :: rest => by
    simp [mk_entries, mk_entries_map_oidx s (idx + 1) rest, List.range']

/-- With a length-preserving shuffle, the selection loop produces exactly
min(count, pool size) questions per rule. -/
theorem select_by_rules_length (qs : List QuestionRow)
    (shuffle : Nat → List Nat → List Nat)
    (hlen : ∀ i l, (shuffle i l).length = l.length) :
    ∀ (rules : List RandomQuestionParameter) (i idx : Nat)
      (chosen : List Nat),
      (select_by_rules qs shuffle rules i idx chosen).length =
        planned_count qs shuffle rules i chosen
  | [], _, _, _ => rfl
  | r :: rs, i, idx, chosen => by
    simp only [select_by_rules, planned_count, List.length_append,
      mk_entries_length, List.length_take, hlen]
    rw [select_by_rules_length qs shuffle hlen rs (i + 1) _ _]

/-- The order indices of the selection loop form the contiguous interval
starting at idx. -/
theorem select_by_rules_map_oidx (qs : List QuestionRow)
    (shuffle : Nat → List Nat → List Nat) :
    ∀ (rules : List RandomQuestionParameter) (i idx : Nat)
      (chosen : List Nat),
      (select_by_rules qs shuffle rules i idx chosen).map
          (fun e => e.order_index) =
        List.range' idx
          (select_by_rules qs shuffle rules i idx chosen).length
  | [], _, _, _ => rfl
  | r :: rs, i, idx, chosen => by
    rw [select_by_rules]
    rw [List.map_append, mk_entries_map_oidx,
      select_by_rules_map_oidx qs shuffle rs (i + 1) _ _,
      List.length_append, mk_entries_length, List.range'_append_1,
      Nat.add_comm (select_by_rules qs shuffle rs (i + 1) _ _).length]

/-- Every id in the pool of a rule is outside the exclusion set. -/
theorem rule_pool_not_chosen (qs : List QuestionRow) (chosen : List Nat)
    (r : RandomQuestionParameter) :
    ∀ x ∈ rule_pool qs chosen r, x ∉ chosen := by
  intro x hx
  unfold rule_pool at hx
  rw [List.mem_map] at hx
  obtain ⟨q, hq, rfl⟩ := hx
  rw [List.mem_filter] at hq
  have := hq.2
  rw [decide_eq_true_eq] at this
  exact this.2.1

/-- With distinct question ids in the table, every rule pool is duplicate
free. -/
theorem rule_pool_nodup (qs : List QuestionRow) (chosen : List Nat)
    (r : RandomQuestionParameter)
    (hq : (qs.map (fun q => q.id)).Nodup) :
    (rule_pool qs chosen r).Nodup := by
  unfold rule_pool
  exact List.Nodup.sublist (List.Sublist.map _ (List.filter_sublist qs)) hq

/-- With a permuting shuffle and distinct table ids, the selection loop never
picks a question twice and never picks from the exclusion set. -/
theorem select_by_rules_qid_nodup (qs : List QuestionRow)
    (shuffle : Nat → List Nat → List Nat)
    (hσ : ∀ i l, (shuffle i l).Perm l)
    (hq : (qs.map (fun q => q.id)).Nodup) :
    ∀ (rules : List RandomQuestionParameter) (i idx : Nat)
      (chosen : List Nat),
      ((select_by_rules qs shuffle rules i idx chosen).map
        (fun e => e.question_id)).Nodup ∧
      ∀ x ∈ (select_by_rules qs shuffle rules i idx chosen).map
        (fun e => e.question_id), x ∉ chosen
  | [], _, _, _ => by
    constructor
    · exact List.nodup_nil
    · intro x hx
      simp [select_by_rules] at hx
  | r :: rs, i, idx, chosen => by
    have hpool := rule_pool_nodup qs chosen r hq
    have hperm := hσ i (rule_pool qs chosen r)
    have hpicked_sub :
        ∀ x ∈ (shuffle i (rule_pool qs chosen r)).take r.count,
          x ∈ rule_pool qs chosen r := by
      intro x hx
      exact hperm.mem_iff.mp (List.take_subset r.count _ hx)
    have hpicked_nodup :
        ((shuffle i (rule_pool qs chosen r)).take r.count).Nodup :=
      List.Nodup.sublist (List.take_sublist r.count _)
        (hperm.symm.nodup hpool)
    obtain ⟨ihnd, ihch⟩ := select_by_rules_qid_nodup qs shuffle hσ hq rs
      (i + 1) (idx + ((shuffle i (rule_pool qs chosen r)).take r.count).length)
      (chosen ++ (shuffle i (rule_pool qs chosen r)).take r.count)
    rw [select_by_rules]
    rw [List.map_append, mk_entries_map_qid]
    constructor
    · rw [List.nodup_append]
      refine ⟨hpicked_nodup, ihnd, ?_⟩
      intro x hxp hxr
      have := ihch x hxr
      exact this (List.mem_append_right chosen hxp)
    · intro x hx
      rw [List.mem_append] at hx
      rcases hx with hx | hx
      · exact rule_pool_not_chosen qs chosen r x (hpicked_sub x hx)
      · intro hc
        exact ihch x hx (List.mem_append_left _ hc)

/-- C4: for both random generators, a rule whose pool is short contributes
min(count, pool size) questions instead of failing, and generation errors
exactly when the selection across all rules is empty. -/
theorem generation_shortfall_policy
    (shuffle : Nat → List Nat → List Nat)
    (rules : List RandomQuestionParameter)
    (hlen : ∀ i l, (shuffle i l).length = l.length) :
    (∀ qs : List QuestionRow,
      ((∃ e, generate_single_individual_paper qs shuffle rules =
          Except.error e) ↔
        select_by_rules qs shuffle rules 0 0 [] = []) ∧
      ∀ out, generate_single_individual_paper qs shuffle rules =
          Except.ok out →
        out.length = planned_count qs shuffle rules 0 []) ∧
    ∀ (db : DB) (exam : ExamRow),
      (∃ e, generate_unified_paper db exam shuffle rules =
          Except.error e) ↔
        select_by_rules db.questions shuffle rules 0 0 [] = [] := by
  constructor
  · intro qs
    constructor
    · unfold generate_single_individual_paper
      by_cases h : select_by_rules qs shuffle rules 0 0 [] = []
      · simp [h]
      · simp [h]
    · intro out hout
      unfold generate_single_individual_paper at hout
      by_cases h : select_by_rules qs shuffle rules 0 0 [] = []
      · simp [h] at hout
      · simp only [h, if_false] at hout
        cases hout
        exact select_by_rules_length qs shuffle hlen rules 0 0 []
  · intro db exam
    unfold generate_unified_paper
    by_cases h : select_by_rules db.questions shuffle rules 0 0 [] = []
    · simp [h]
    · simp [h]

/-- C4 witness: a rule wanting 3 questions from a 2-question chapter
succeeds with both questions; the theorem fixes the success length to the
planned min(count, pool) total. -/
theorem generation_shortfall_policy_witness :
    generate_single_individual_paper genQs (fun _ l => l) [shortRule] =
      Except.ok
        [ { question_id := 1, score := 2, order_index := 0 }
        , { question_id := 2, score := 2, order_index := 1 } ] ∧
    ([ { question_id := 1, score := 2, order_index := 0 }
     , { question_id := 2, score := 2, order_index := 1 } ] :
        List PaperEntry).length =
      planned_count genQs (fun _ l => l) [shortRule] 0 [] :=
  ⟨by rfl,
   ((generation_shortfall_policy (fun _ l => l) [shortRule]
      (fun _ _ => rfl)).1 genQs).2 _ (by rfl)⟩

/-- C5 counterexample: with two rules over the same chapter, the attempt
level generator (CRUDExamAttempt.generate_individual_paper) picks question 1
twice into one paper — the no-duplicates claim fails for it. -/
theorem generate_individual_paper_duplicate_cex :
    ((generate_individual_paper dupDB dupAttempt (fun _ l => l)
        dupRules).attemptPapers.map (fun p => p.question_id)) = [1, 1] ∧
    ((generate_individual_paper dupDB dupAttempt (fun _ l => l)
        dupRules).attemptPapers.map (fun p => p.order_index)) = [0, 1] := by
  constructor
  · rfl
  · rfl

/-- C5 amended: papers produced by the publish-time generators
(_generate_single_individual_paper and generate_unified_paper) have
order_index exactly 0..N-1 and no duplicated question id even across rules
with overlapping chapters; the uncalled attempt-level generator keeps
order_index contiguous but lacks the cross-rule exclusion, so it can
duplicate a question (see the counterexample). -/
theorem generated_paper_invariants (qs : List QuestionRow)
    (shuffle : Nat → List Nat → List Nat)
    (rules : List RandomQuestionParameter)
    (hσ : ∀ i l, (shuffle i l).Perm l)
    (hq : (qs.map (fun q => q.id)).Nodup) :
    (∀ out, generate_single_individual_paper qs shuffle rules =
        Except.ok out →
      out.map (fun e => e.order_index) = List.range out.length ∧
      (out.map (fun e => e.question_id)).Nodup) ∧
    ∀ (db : DB) (exam : ExamRow) (db2 : DB), db.questions = qs →
      generate_unified_paper db exam shuffle rules = Except.ok db2 →
      ((db2.examQuestions.drop db.examQuestions.length).map
          (fun r => r.order_index) =
        List.range (db2.examQuestions.drop db.examQuestions.length).length ∧
      ((db2.examQuestions.drop db.examQuestions.length).map
          (fun r => r.question_id)).Nodup) := by
  have hout : ∀ out, out = select_by_rules qs shuffle rules 0 0 [] →
      out.map (fun e => e.order_index) = List.range out.length ∧
      (out.map (fun e => e.question_id)).Nodup := by
    intro out hsel
    subst hsel
    constructor
    · rw [select_by_rules_map_oidx qs shuffle rules 0 0 [],
        List.range_eq_range']
    · exact (select_by_rules_qid_nodup qs shuffle hσ hq rules 0 0 []).1
  constructor
  · intro out h
    unfold generate_single_individual_paper at h
    by_cases hz : select_by_rules qs shuffle rules 0 0 [] = []
    · simp [hz] at h
    · simp only [hz, if_false] at h
      cases h
      exact hout _ rfl
  · intro db exam db2 hqs h
    unfold generate_unified_paper at h
    by_cases hz : select_by_rules db.questions shuffle rules 0 0 [] = []
    · simp [hz] at h
    · simp only [hz, if_false] at h
      cases h
      rw [List.drop_left]
      subst hqs
      obtain ⟨h1, h2⟩ := hout _ rfl
      constructor
      · rw [List.map_map, List.length_map]
        exact h1
      · rw [List.map_map]
        exact h2

/-- C5 witness: the invariants at a concrete two-question selection. -/
theorem generated_paper_invariants_witness :
    ([ { question_id := 1, score := 2, order_index := 0 }
     , { question_id := 2, score := 2, order_index := 1 } ] :
        List PaperEntry).map (fun e => e.order_index) =
      List.range
        ([ { question_id := 1, score := 2, order_index := 0 }
         , { question_id := 2, score := 2, order_index := 1 } ] :
            List PaperEntry).length ∧
    (([ { question_id := 1, score := 2, order_index := 0 }
      , { question_id := 2, score := 2, order_index := 1 } ] :
        List PaperEntry).map (fun e => e.question_id)).Nodup :=
  (generated_paper_invariants genQs (fun _ l => l) [shortRule]
    (fun _ l => List.Perm.refl l) (by decide)).1 _ (by rfl)

/-- C1: at a state produced by the publish pipeline of a random_individual
exam — PreGeneratedPaper rows present for (exam 1, user 7), no
ExamAttemptPaper rows since nothing ever writes them — the paper query for
the in_progress attempt returns the empty list instead of the pre-generated
rows. -/
theorem get_paper_pregenerated_ignored :
    paperExam.paper_generation_mode =
      PaperGenerationModeEnum.random_individual ∧
    paperDB.preGeneratedPapers.filter (fun r =>
      r.exam_id = 1 ∧ r.user_id = 7) ≠ [] ∧
    paperAttempt.status = ExamAttemptStatusEnum.in_progress ∧
    get_attempt_paper_questions paperDB 5 = [] := by
  refine ⟨rfl, ?_, rfl, rfl⟩
  decide

/-- C9 counterexample: one group participant row whose group has two
members — the resolver yields 2 distinct users, but the statistics report
participant_count 1 (the raw row count), refuting equality with the
resolver result. -/
theorem exam_statistics_participant_cex :
    (get_exam_statistics_admin statsDB 60).participant_count = 1 ∧
    (resolve_participant_user_ids statsDB 60).length = 2 ∧
    (get_exam_statistics_admin statsDB 60).participant_count ≠
      (resolve_participant_user_ids statsDB 60).length := by
  refine ⟨rfl, rfl, ?_⟩
  decide

/-- C9 amended: exam_statistics reports participant_count as the plain count
of ExamParticipant rows (group rows count once, members are not expanded),
averages final_score over graded attempts with a non-null score only, and
computes max_score_possible as the ExamQuestion score sum for
manual/random_unified (none when no rows) and as the sum of
count x score_per_question over the stored rules for random_individual
(none when rules are absent). -/
theorem exam_statistics_spec (db : DB) (exam_id : Nat) (exam : ExamRow)
    (h : db.getExam exam_id = some exam) :
    get_exam_statistics_admin db exam_id =
      { participant_count :=
          (db.examParticipants.filter (fun p => p.exam_id = exam_id)).length
        attempt_count := (db.attempts.filter (fun a =>
          a.exam_id = exam_id ∧ a.status = ExamAttemptStatusEnum.graded ∧
          a.final_score ≠ none)).length
        average_score :=
          if (db.attempts.filter (fun a =>
              a.exam_id = exam_id ∧
              a.status = ExamAttemptStatusEnum.graded ∧
              a.final_score ≠ none)).isEmpty then none
          else some (((db.attempts.filter (fun a =>
              a.exam_id = exam_id ∧
              a.status = ExamAttemptStatusEnum.graded ∧
              a.final_score ≠ none)).filterMap (fun a => a.final_score)).sum /
            (((db.attempts.filter (fun a =>
              a.exam_id = exam_id ∧
              a.status = ExamAttemptStatusEnum.graded ∧
              a.final_score ≠ none)).length : Nat) : Rat))
        max_score_possible :=
          if exam.paper_generation_mode = PaperGenerationModeEnum.manual ∨
             exam.paper_generation_mode =
               PaperGenerationModeEnum.random_unified then
            (if (db.examQuestions.filter (fun q =>
                q.exam_id = exam_id)).isEmpty then none
             else some (((db.examQuestions.filter (fun q =>
               q.exam_id = exam_id)).map (fun q => q.score)).sum))
          else
            exam.random_rules_json.map (fun rules =>
              (rules.map (fun r =>
                (r.count : Rat) * r.score_per_question)).sum) } := by
  unfold get_exam_statistics_admin get_participant_count
  rw [h]
  cases hrj : exam.random_rules_json <;> simp [hrj]

/-- C9 witness: the amended statement evaluated on the concrete statsDB. -/
theorem exam_statistics_spec_witness :
    get_exam_statistics_admin statsDB 60 =
      { participant_count :=
          (statsDB.examParticipants.filter (fun p => p.exam_id = 60)).length
        attempt_count := (statsDB.attempts.filter (fun a =>
          a.exam_id = 60 ∧ a.status = ExamAttemptStatusEnum.graded ∧
          a.final_score ≠ none)).length
        average_score :=
          if (statsDB.attempts.filter (fun a =>
              a.exam_id = 60 ∧
              a.status = ExamAttemptStatusEnum.graded ∧
              a.final_score ≠ none)).isEmpty then none
          else some (((statsDB.attempts.filter (fun a =>
              a.exam_id = 60 ∧
              a.status = ExamAttemptStatusEnum.graded ∧
              a.final_score ≠ none)).filterMap
                (fun a => a.final_score)).sum /
            (((statsDB.attempts.filter (fun a =>
              a.exam_id = 60 ∧
              a.status = ExamAttemptStatusEnum.graded ∧
              a.final_score ≠ none)).length : Nat) : Rat))
        max_score_possible :=
          if statsExam.paper_generation_mode =
               PaperGenerationModeEnum.manual ∨
             statsExam.paper_generation_mode =
               PaperGenerationModeEnum.random_unified then
            (if (statsDB.examQuestions.filter (fun q =>
                q.exam_id = 60)).isEmpty then none
             else some (((statsDB.examQuestions.filter (fun q =>
               q.exam_id = 60)).map (fun q => q.score)).sum))
          else
            statsExam.random_rules_json.map (fun rules =>
              (rules.map (fun r =>
                (r.count : Rat) * r.score_per_question)).sum) } :=
  exam_statistics_spec statsDB 60 statsExam rfl

/-- C3 counterexample: user 2 is removed from the published
random_individual syncExam while holding an in_progress attempt, yet the
sync deletes their PreGeneratedPaper rows. -/
theorem sync_removed_active_cex :
    (syncDB.attempts.any fun a => a.exam_id = 50 ∧ a.user_id = 2 ∧
      a.status = ExamAttemptStatusEnum.in_progress) = true ∧
    syncDB.preGeneratedPapers.filter (fun r =>
      r.exam_id = 50 ∧ r.user_id = 2) ≠ [] ∧
    sync_participants syncDB syncExam ⟨[3], []⟩ true (fun _ _ l => l) =
      Except.ok
        ({ syncDB with
            examParticipants := [ { exam_id := 50, user_id := some 3
                                    group_id := none } ]
            preGeneratedPapers := [] }, [3], [2]) := by
  refine ⟨rfl, by decide, ?_⟩
  rfl

/-- C3 amended: on a roster update with delta handling on a
random_individual exam, the PreGeneratedPaper rows of every removed user are
deleted unconditionally — no attempt-status check shields a user with an
in_progress or later attempt. -/
theorem sync_participants_removed_deleted (db : DB) (exam : ExamRow)
    (assignment : ParticipantAssignment)
    (shuffle : Nat → Nat → List Nat → List Nat)
    (db' : DB) (added removed : List Nat) (u : Nat)
    (h : sync_participants db exam assignment true shuffle =
      Except.ok (db', added, removed))
    (hu : u ∈ removed) :
    db'.preGeneratedPapers.filter (fun r =>
      r.exam_id = exam.id ∧ r.user_id = u) = [] := by
  unfold sync_participants at h
  by_cases hm : exam.paper_generation_mode =
      PaperGenerationModeEnum.random_individual
  · rw [if_pos ⟨rfl, hm⟩] at h
    split at h
    · exact absurd h (by simp)
    · rw [Except.ok.injEq, Prod.mk.injEq, Prod.mk.injEq] at h
      obtain ⟨hdb, _, hrem⟩ := h
      subst hdb
      subst hrem
      unfold sync_apply
      by_cases hre : (sync_removed db exam assignment).isEmpty = true
      · rw [List.isEmpty_iff] at hre
        rw [hre] at hu
        cases hu
      · rw [Bool.not_eq_true] at hre
        simp only [hre, Bool.false_eq_true, if_false]
        rw [List.filter_eq_nil_iff]
        intro a ha htarget
        rw [decide_eq_true_eq] at htarget
        rw [List.mem_filter] at ha
        obtain ⟨_, hkeep⟩ := ha
        rw [decide_eq_true_eq] at hkeep
        exact hkeep ⟨htarget.1, by rw [htarget.2]; exact hu⟩
  · rw [if_neg (fun hc => hm hc.2)] at h
    rw [Except.ok.injEq, Prod.mk.injEq, Prod.mk.injEq] at h
    obtain ⟨_, _, hrem⟩ := h
    rw [← hrem] at hu
    cases hu

/-- C3 witness: the amended statement evaluated on the concrete roster
update of syncDB (user 2 removed while in_progress). -/
theorem sync_participants_removed_deleted_witness :
    (sync_apply syncDB syncExam ⟨[3], []⟩ (fun _ _ l => l)
      [ { chapter_ids := [1], question_type := none, count := 1
          score_per_question := 1 } ]).preGeneratedPapers.filter
      (fun r => r.exam_id = syncExam.id ∧ r.user_id = 2) = [] :=
  sync_participants_removed_deleted syncDB syncExam ⟨[3], []⟩
    (fun _ _ l => l) _ (sync_added syncDB syncExam ⟨[3], []⟩)
    (sync_removed syncDB syncExam ⟨[3], []⟩) 2 rfl (by decide)

/-- C10: starting a pending attempt on a published exam inside its window
succeeds, puts the attempt in_progress with the timer fields set, and the
only change to the exams table is that the exam row becomes
(exam with status := ongoing): every other exam field is carried over
unchanged, and no other table besides attempts is touched. -/
theorem start_pending_published_effect
    (db : DB) (exam_id user_id : Nat) (gids : List Nat) (now : Int)
    (exam : ExamRow) (a : ExamAttemptRow)
    (hex : db.getExam exam_id = some exam)
    (h1 : ¬ exam.start_time > now)
    (h2 : ¬ exam.end_time ≤ now)
    (hst : exam.status = ExamStatusEnum.published)
    (hpart : (db.examParticipants.any fun p =>
        p.exam_id = exam_id ∧ (p.user_id = some user_id ∨
          ∃ g ∈ gids, p.group_id = some g)) = true)
    (hf : db.attempts.find? (fun x =>
        x.user_id = user_id ∧ x.exam_id = exam_id) = some a)
    (hp : a.status = ExamAttemptStatusEnum.pending) :
    start_or_resume_exam_attempt db exam_id user_id gids now =
      Except.ok
        ({ db with
            attempts := db.attempts.map (fun x =>
              if x.id = a.id then
                { a with
                  start_time := some now
                  calculated_end_time := some (now + exam.duration_minutes)
                  status := ExamAttemptStatusEnum.in_progress
                  last_heartbeat := some now }
              else x)
            exams := db.exams.map (fun e =>
              if e.id = exam_id then
                { exam with status := ExamStatusEnum.ongoing }
              else e) },
         { a with
           start_time := some now
           calculated_end_time := some (now + exam.duration_minutes)
           status := ExamAttemptStatusEnum.in_progress
           last_heartbeat := some now }) := by
  have hcreate : create_or_get_pending db user_id exam_id =
      Except.ok (db, a) := by
    simp only [create_or_get_pending, hf]
    rw [if_neg (by rw [hp]; simp)]
  have hstart : start_attempt db a exam.duration_minutes now =
      Except.ok
        ({ db with attempts := db.attempts.map (fun x =>
            if x.id = a.id then
              { a with
                start_time := some now
                calculated_end_time := some (now + exam.duration_minutes)
                status := ExamAttemptStatusEnum.in_progress
                last_heartbeat := some now }
            else x) },
         { a with
           start_time := some now
           calculated_end_time := some (now + exam.duration_minutes)
           status := ExamAttemptStatusEnum.in_progress
           last_heartbeat := some now }) := by
    unfold start_attempt
    rw [if_neg (by rw [hp]; simp), if_neg (fun hc => hc hp)]
  simp only [start_or_resume_exam_attempt, hex, if_neg h1, if_neg h2,
    if_neg (not_not_intro (Or.inl hst)), if_neg (not_not_intro hpart),
    hcreate, if_pos hp, hstart, if_pos hst]

/-- C10 witness: the effect evaluated on the concrete startDB. -/
theorem start_pending_published_effect_witness :
    start_or_resume_exam_attempt startDB 10 9 [] 100 =
      Except.ok
        ({ startDB with
            attempts := startDB.attempts.map (fun x =>
              if x.id = pendAttempt.id then
                { pendAttempt with
                  start_time := some 100
                  calculated_end_time :=
                    some (100 + startExam.duration_minutes)
                  status := ExamAttemptStatusEnum.in_progress
                  last_heartbeat := some 100 }
              else x)
            exams := startDB.exams.map (fun e =>
              if e.id = 10 then
                { startExam with status := ExamStatusEnum.ongoing }
              else e) },
         { pendAttempt with
           start_time := some 100
           calculated_end_time := some (100 + startExam.duration_minutes)
           status := ExamAttemptStatusEnum.in_progress
           last_heartbeat := some 100 }) :=
  start_pending_published_effect startDB 10 9 [] 100 startExam pendAttempt
    rfl (by decide) (by decide) rfl (by decide) rfl rfl

/-- C2 witness: concrete instances of both conjuncts of the amended policy. -/
theorem submit_attempt_late_policy_witness :
    submit_attempt lateAttempt 200 = Except.ok { lateAttempt with
      submit_time := some 200
      status := ExamAttemptStatusEnum.submitted } ∧
    submit_exam_attempt lateDB 1 9 200 =
      Except.error "Exam time has expired." :=
  ⟨submit_attempt_late_policy.1 lateAttempt 200 rfl,
   submit_attempt_late_policy.2 lateDB 1 9 200 100 lateAttempt rfl rfl rfl rfl
     (by decide)⟩

end ExamSys
